import Mathlib

/-!
Verification development for the medbud reminder scheduling and delivery
engine.  The definitions below are shallow embeddings of the TypeScript
sources: the due-time matcher `checkReminders` / `isTimeMatch` of the
`useNotifications` hook, the calendar view's per-date reminder filter
`getRemindersForDate`, the OneSignal module (`initOneSignal`,
`setExternalUserId`, `scheduleNotification`) and the native notification
module (`scheduleNotification`, `cancelScheduledNotification`,
`scheduleReminderNotifications`).  Machine integers are modelled as `Int`
(JavaScript `Date.getTime()` millisecond values), clock times `"HH:MM"`
as pairs of naturals (the sources parse them with `split(':').map(Number)`),
and the ad hoc in-memory `Set` of already-notified occurrence keys as a
list of structured keys.
-/

namespace MedBud

/-- Reminder frequency enum (`'daily' | 'weekly' | 'monthly'`). -/
inductive Frequency
  | daily
  | weekly
  | monthly
deriving DecidableEq, Repr

/-- Reminder type enum (`'medication' | 'appointment'`). -/
inductive RType
  | medication
  | appointment
deriving DecidableEq, Repr

/-- A calendar date as read by the calendar page: `idx` is the day index
(midnight-normalized days since an arbitrary epoch; we use 2024-01-01 = 0
in concrete instances) and `dom` is `Date.getDate()`, the day of month. -/
structure CalDate where
  idx : Int
  dom : Nat
deriving DecidableEq, Repr

/-- The `Reminder` record of the hook, restricted to the fields the
scheduling code reads.  `times` holds the parsed `"HH:MM"` entries;
`appointmentDate` is the day index of the appointment date (`none` when the
field is absent or empty, i.e. falsy); `reminderAdvance` is the advance in
hours (`some 0` is falsy in the source's truthiness test).  `startDate`,
`endDate` and `frequency` are carried in the record exactly as in the
TypeScript type; whether a given function reads them is visible in its
definition. -/
structure Reminder where
  id : String
  rtype : RType
  times : List (Nat × Nat)
  appointmentDate : Option Int
  reminderAdvance : Option Nat
  startDate : CalDate
  endDate : Option CalDate
  frequency : Frequency
deriving DecidableEq, Repr

/-- Occurrence keys, the structured counterpart of the dedup strings built
by `checkReminders`: `med id time date` embeds
`` `${reminder.id}-${time}-${now.toDateString()}` `` and `appt id apptMs`
embeds `` `${reminder.id}-appointment-${appointmentDate.toISOString()}` ``
(the ISO string determines and is determined by the millisecond value). -/
inductive OccKey
  | med (id : String) (time : Nat × Nat) (date : Int)
  | appt (id : String) (apptMs : Int)
deriving DecidableEq, Repr

/-- A wall-clock sample, holding exactly the projections of `new Date()`
the matcher reads: `ms` is `getTime()`, `hour`/`minute` are
`getHours()`/`getMinutes()`, and `dateIdx` identifies `toDateString()`. -/
structure Instant where
  ms : Int
  hour : Nat
  minute : Nat
  dateIdx : Int
deriving DecidableEq, Repr

/-- A consistent wall-clock sample at day `day`, time `hour:minute:second`
(local time), with all four projections derived from the same moment. -/
def mkInstant (day hour minute second : Nat) : Instant :=
  { ms := (day : Int) * 86400000 + (hour : Int) * 3600000
            + (minute : Int) * 60000 + (second : Int) * 1000
    hour := hour
    minute := minute
    dateIdx := (day : Int) }

namespace UseNotifications

/-- `isTimeMatch` from the `useNotifications` hook: the two `"HH:MM"`
strings match iff the hours are equal and the minutes differ by at most
one (`reminderHour === currentHour && Math.abs(reminderMinute -
currentMinute) <= 1`). -/
def isTimeMatch (reminderTime currentTime : Nat × Nat) : Bool :=
  reminderTime.1 == currentTime.1 &&
    decide (((reminderTime.2 : Int) - (currentTime.2 : Int)).natAbs ≤ 1)

/-- Observable actions of one matcher tick, in execution order: `deliver k`
is the call `triggerNotification(...)` for occurrence `k`, `record k` is
`notifiedRemindersRef.current.add(reminderKey)`. -/
inductive Event
  | deliver (k : OccKey)
  | record (k : OccKey)
deriving DecidableEq, Repr

/-- Replay the `add` calls of a tick on the notified set (the `delete`
scheduled by `setTimeout` fires only after the 24-hour retention window,
so it does not appear inside a tick). -/
def applyEvents (notified : List OccKey) : List Event → List OccKey
  | [] => notified
  | Event.deliver _ :: rest => applyEvents notified rest
  | Event.record k :: rest => applyEvents (k :: notified) rest

/-- Number of deliveries of key `k` in an event trace. -/
def deliverCount (k : OccKey) : List Event → Nat
  | [] => 0
  | Event.deliver k1 :: rest => (if k1 = k then 1 else 0) + deliverCount k rest
  | Event.record _ :: rest => deliverCount k rest

/-- Whether the first event of the trace that concerns key `k` is the
recording of `k` — the order the spec prescribes (claim strictly before
delivery).  `false` when the first event concerning `k` is its delivery,
or when no event concerns `k` at all. -/
def recordBeforeDeliver (k : OccKey) : List Event → Bool
  | [] => false
  | Event.deliver k1 :: rest =>
    if k1 = k then false else recordBeforeDeliver k rest
  | Event.record k1 :: rest =>
    if k1 = k then true else recordBeforeDeliver k rest

/-- The `reminder.times.forEach` loop of the medication branch of
`checkReminders`: for each time, build the key, and if `isTimeMatch`
holds and the key is not in the notified set, trigger the delivery and
then add the key. -/
def medEvents (now : Instant) (notified : List OccKey) (id : String) :
    List (Nat × Nat) → List Event
  | [] => []
  | t :: ts =>
    if isTimeMatch t (now.hour, now.minute) ∧ OccKey.med id t now.dateIdx ∉ notified then
      Event.deliver (OccKey.med id t now.dateIdx) ::
        Event.record (OccKey.med id t now.dateIdx) ::
          medEvents now (OccKey.med id t now.dateIdx :: notified) id ts
    else
      medEvents now notified id ts

/-- The appointment moment in milliseconds: `new Date(reminder.appointmentDate)`
followed by `setHours(hours, minutes, 0, 0)` with `times[0]` parsed. -/
def apptInstantMs (aDay : Int) (t : Nat × Nat) : Int :=
  aDay * 86400000 + (t.1 : Int) * 3600000 + (t.2 : Int) * 60000

/-- One reminder inside the `reminders.forEach` of `checkReminders`.  The
appointment branch is taken when `reminder.type === 'appointment' &&
reminder.appointmentDate && reminder.reminderAdvance` (all truthy); it
combines the appointment date with `times[0]`, subtracts the advance
(`reminderAdvance * 60 * 60 * 1000` ms) and fires iff
`Math.abs(now - reminderTime) <= 60 * 1000` and the key is fresh.
Every other reminder goes through the medication branch. -/
def checkReminder (now : Instant) (notified : List OccKey) (r : Reminder) :
    List Event :=
  match r.rtype, r.appointmentDate, r.reminderAdvance with
  | RType.appointment, some aDay, some adv =>
    if adv = 0 then
      medEvents now notified r.id r.times
    else
      if (now.ms - (apptInstantMs aDay (r.times.headD (0, 0)) - (adv : Int) * 3600000)).natAbs
            ≤ 60000
          ∧ OccKey.appt r.id (apptInstantMs aDay (r.times.headD (0, 0))) ∉ notified then
        [Event.deliver (OccKey.appt r.id (apptInstantMs aDay (r.times.headD (0, 0)))),
         Event.record (OccKey.appt r.id (apptInstantMs aDay (r.times.headD (0, 0))))]
      else
        []
  | _, _, _ => medEvents now notified r.id r.times

/-- `checkReminders`: one matcher tick at instant `now` over the reminder
list, threading the notified set left to right exactly as the mutable
`Set` is threaded through the `forEach`. -/
def checkReminders (now : Instant) (reminders : List Reminder)
    (notified : List OccKey) : List Event :=
  match reminders with
  | [] => []
  | r :: rs =>
    checkReminder now notified r ++
      checkReminders now rs (applyEvents notified (checkReminder now notified r))

/-- A run of the 30-second interval loop: successive ticks at the given
instants, each tick starting from the notified set the previous tick left
behind.  No eviction happens between the ticks, which models any stretch
of ticks inside the 24-hour retention window of a key. -/
def runTicks (reminders : List Reminder) : List Instant → List OccKey → List Event
  | [], _ => []
  | t :: ts, notified =>
    checkReminders t reminders notified ++
      runTicks reminders ts (applyEvents notified (checkReminders t reminders notified))

end UseNotifications

namespace CalendarPage

/-- The calendar view's reminder record, with the database field names
(`start_date`, `end_date`, `frequency`) that `getRemindersForDate` reads. -/
structure CalReminder where
  start_date : CalDate
  end_date : Option CalDate
  frequency : Frequency
deriving DecidableEq, Repr

/-- The filter body of `getRemindersForDate` on the calendar page: both
dates midnight-normalized (`setHours(0,0,0,0)`), `end_date` pushed to the
end of its day (`setHours(23,59,59,999)`), reject out-of-range dates,
then switch on frequency with `daysDiff = floor((checkDate - startDate) /
dayMs)` for the weekly case and `getDate()` equality for the monthly one. -/
def getRemindersForDateKeep (r : CalReminder) (checkDate : CalDate) : Bool :=
  let pastEnd : Bool :=
    match r.end_date with
    | some e => decide (checkDate.idx > e.idx)
    | none => false
  if checkDate.idx < r.start_date.idx then
    false
  else if pastEnd then
    false
  else
    let daysDiff := checkDate.idx - r.start_date.idx
    match r.frequency with
    | Frequency.daily => true
    | Frequency.weekly => daysDiff % 7 == 0
    | Frequency.monthly => checkDate.dom == r.start_date.dom

/-- `getRemindersForDate`: the reminders the calendar shows on a date. -/
def getRemindersForDate (reminders : List CalReminder) (d : CalDate) :
    List CalReminder :=
  reminders.filter (fun r => getRemindersForDateKeep r d)

end CalendarPage

namespace OneSignalLib

/-- The module-level mutable variables of `onesignal.ts` that
`initOneSignal` consults: `isInitialized` and whether `initPromise` is
non-null. -/
structure InitVars where
  isInitialized : Bool
  hasPromise : Bool
deriving DecidableEq, Repr

/-- The state before the module has ever been entered:
`isInitialized = false`, `initPromise = null`. -/
def initVars0 : InitVars := { isInitialized := false, hasPromise := false }

/-- What one call to `initOneSignal` does, observably. -/
inductive InitAction
  | returnDone
  | awaitInFlight
  | startNew
deriving DecidableEq, Repr

/-- One call to `initOneSignal`.  The guard sequence of the source runs
without any intervening `await` (JavaScript is single threaded up to a
suspension point), so the whole decision is one atomic step: return at
once when `isInitialized`, join the stored promise when `initPromise` is
set, otherwise store a fresh promise and start the only attempt. -/
def initOneSignalCall (s : InitVars) : InitAction × InitVars :=
  if s.isInitialized then
    (InitAction.returnDone, s)
  else if s.hasPromise then
    (InitAction.awaitInFlight, s)
  else
    (InitAction.startNew, { isInitialized := false, hasPromise := true })

/-- How the in-flight attempt can settle in the source: `success` sets
`isInitialized = true` (the promise object stays stored); `earlyReturn`
is the non-browser / unconfigured path, which resolves the stored promise
but changes neither variable; `failure` is the catch block, which resets
`isInitialized = false` and `initPromise = null` and rethrows. -/
inductive InitOutcome
  | success
  | earlyReturn
  | failure
deriving DecidableEq, Repr

/-- Apply an attempt outcome to the module variables. -/
def initOneSignalResolve : InitOutcome → InitVars → InitVars
  | InitOutcome.success, s => { s with isInitialized := true }
  | InitOutcome.earlyReturn, s => s
  | InitOutcome.failure, _ => { isInitialized := false, hasPromise := false }

/-- `n` back-to-back calls to `initOneSignal` with no settlement of the
attempt in between (the overlapping-callers situation): returns how many
of them started a new attempt, and the final variable state. -/
def runInitCalls : InitVars → Nat → Nat × InitVars
  | s, 0 => (0, s)
  | s, n + 1 =>
    let (a, s1) := initOneSignalCall s
    let (c, s2) := runInitCalls s1 n
    ((if a = InitAction.startNew then 1 else 0) + c, s2)

/-- `setExternalUserId` from the OneSignal module (the revision exporting
`ensureSubscribed`, which the `OneSignalInit` component imports): it reads
`OneSignal.User.PushSubscription.id` — modelled as the `playerId`
argument, `none` for `null`/`undefined` — and when the id is falsy
(absent or the empty string) it throws; the surrounding catch logs and
rethrows, so the error reaches the caller.  With a non-empty id it calls
`OneSignal.login(userId)`, modelled by the `.ok` payload naming the
linked user. -/
def setExternalUserId (playerId : Option String) (userId : String) :
    Except String String :=
  match playerId with
  | none => Except.error "User must be subscribed before linking external ID"
  | some p =>
    if p = "" then
      Except.error "User must be subscribed before linking external ID"
    else
      Except.ok userId

/-- Responses the OneSignal REST endpoint can give to the single `fetch`
of `scheduleNotification`: a 2xx body with an id, a non-ok HTTP status
(this includes gateway 5xx, the spec's transient class), or a thrown
network error. -/
inductive GatewayResponse
  | ok (id : String)
  | httpError (status : Nat) (msg : String)
  | networkError (msg : String)
deriving DecidableEq, Repr

/-- Observable dispatch steps of `scheduleNotification`: a POST to the
gateway, or a local delivery (the latter never occurs in the source; it
is in the type so its absence is expressible). -/
inductive DispatchEvent
  | gatewayPost
  | localDeliver
deriving DecidableEq, Repr

/-- The result object of `scheduleNotification`:
`{ success, notificationId?, error? }`. -/
structure ScheduleResult where
  success : Bool
  notificationId : Option String
  error : Option String
deriving DecidableEq, Repr

/-- `scheduleNotification` from the OneSignal module, run against an
oracle giving the gateway's response to the `i`-th POST the function
would make.  The source performs exactly one `fetch`; `response.ok`
yields `{success: true, notificationId: result.id}`, a non-ok response
yields `{success: false, error}`, and a thrown network error is caught
and also yields `{success: false, error}`.  There is no loop, no retry
and no local fallback in the function. -/
def scheduleNotification (oracle : Nat → GatewayResponse) :
    List DispatchEvent × ScheduleResult :=
  match oracle 0 with
  | GatewayResponse.ok id =>
    ([DispatchEvent.gatewayPost],
      { success := true, notificationId := some id, error := none })
  | GatewayResponse.httpError _ msg =>
    ([DispatchEvent.gatewayPost],
      { success := false, notificationId := none, error := some msg })
  | GatewayResponse.networkError msg =>
    ([DispatchEvent.gatewayPost],
      { success := false, notificationId := none, error := some msg })

end OneSignalLib

namespace NotificationsLib

/-- The ambient state the native notification module mutates: the next id
`window.setTimeout` will hand out, the notifications shown immediately
(titles, newest first), and the still-pending timeouts with their fire
times. -/
structure NotifState where
  nextTimeoutId : Int
  shownNow : List String
  pending : List (Int × Int)
deriving DecidableEq, Repr

/-- `scheduleNotification` from `notifications.ts`: compute
`delay = scheduledTime - now`; when `delay <= 0` show the notification
immediately and return the sentinel `-1`, otherwise register a timeout
and return its id. -/
def scheduleNotification (title : String) (nowMs scheduledMs : Int)
    (st : NotifState) : Int × NotifState :=
  let delay := scheduledMs - nowMs
  if delay ≤ 0 then
    (-1, { st with shownNow := title :: st.shownNow })
  else
    (st.nextTimeoutId,
      { st with
          nextTimeoutId := st.nextTimeoutId + 1
          pending := (st.nextTimeoutId, scheduledMs) :: st.pending })

/-- `cancelScheduledNotification`: `clearTimeout` only when
`timeoutId > 0`; for any other id the function does nothing. -/
def cancelScheduledNotification (timeoutId : Int) (st : NotifState) :
    NotifState :=
  if timeoutId > 0 then
    { st with pending := st.pending.filter (fun p => p.1 ≠ timeoutId) }
  else
    st

/-- `notificationDate.setMonth(notificationDate.getMonth() + 1)`:
calendar-dependent month arithmetic, kept as a parameter of the
scheduling function since the properties below hold for any such map. -/
abbrev MonthAdvance := Int → Int

/-- The frequency `switch` of `scheduleReminderNotifications`: push a
passed time to the next occurrence (one day, seven days, or one month). -/
def advanceByFrequency (addMonth : MonthAdvance) :
    Frequency → Int → Int
  | Frequency.daily, t => t + 86400000
  | Frequency.weekly, t => t + 7 * 86400000
  | Frequency.monthly, t => addMonth t

/-- The body of the `times.forEach` of `scheduleReminderNotifications`:
build the notification datetime for one `"HH:MM"` entry, schedule it, and
push the timeout id onto the accumulator only when `timeoutId > 0`. -/
def scheduleReminderStep (addMonth : MonthAdvance) (reminderName : String)
    (startDayMs : Int) (frequency : Frequency) (rtype : RType) (nowMs : Int)
    (acc : List Int × NotifState) (t : Nat × Nat) : List Int × NotifState :=
  let notif0 : Int := startDayMs + (t.1 : Int) * 3600000 + (t.2 : Int) * 60000
  let notif : Int :=
    if notif0 ≤ nowMs then advanceByFrequency addMonth frequency notif0
    else notif0
  let title :=
    match rtype with
    | RType.medication => "Time to take " ++ reminderName
    | RType.appointment => "Appointment: " ++ reminderName
  let res := scheduleNotification title nowMs notif acc.2
  (if res.1 > 0 then acc.1 ++ [res.1] else acc.1, res.2)

/-- `scheduleReminderNotifications`: for each `"HH:MM"` entry combine it
with the start date (`setHours(hours, minutes, 0, 0)` on a copy of
`startDate`, whose midnight is `startDayMs`), push a passed time forward
once by the frequency, schedule it, and collect the timeout id only when
it is `> 0`. -/
def scheduleReminderNotifications (addMonth : MonthAdvance)
    (reminderName : String) (times : List (Nat × Nat)) (startDayMs : Int)
    (frequency : Frequency) (rtype : RType) (nowMs : Int)
    (st : NotifState) : List Int × NotifState :=
  times.foldl (scheduleReminderStep addMonth reminderName startDayMs frequency rtype nowMs)
    ([], st)

end NotificationsLib

/-! Concrete sample data (with 2024-01-01 as day 0 of the calendar index,
so 2024-01-08 is day 7, 2024-01-09 is day 8, and `dom` is the day of
month). -/

/-- A weekly medication reminder starting 2024-01-01 at 09:00. -/
def sampleWeekly : Reminder :=
  ⟨"w1", RType.medication, [(9, 0)], none, none, ⟨0, 1⟩, none, Frequency.weekly⟩

/-- The calendar view's record of `sampleWeekly`. -/
def sampleWeeklyCal : CalendarPage.CalReminder := ⟨⟨0, 1⟩, none, Frequency.weekly⟩

/-- A daily medication reminder at 09:00 whose start date 2024-01-15
(day 14) lies in the future of the ticks below. -/
def sampleFutureStart : Reminder :=
  ⟨"f1", RType.medication, [(9, 0)], none, none, ⟨14, 15⟩, none, Frequency.daily⟩

/-- The calendar view's record of `sampleFutureStart`. -/
def sampleFutureStartCal : CalendarPage.CalReminder := ⟨⟨14, 15⟩, none, Frequency.daily⟩

/-- A daily medication reminder at 09:00 that ended on 2024-01-03 (day 2). -/
def sampleEnded : Reminder :=
  ⟨"e1", RType.medication, [(9, 0)], none, none, ⟨0, 1⟩, some ⟨2, 3⟩, Frequency.daily⟩

/-- The calendar view's record of `sampleEnded`. -/
def sampleEndedCal : CalendarPage.CalReminder := ⟨⟨0, 1⟩, some ⟨2, 3⟩, Frequency.daily⟩

/-- A daily medication reminder at 10:00 starting 2024-01-01. -/
def sampleTen : Reminder :=
  ⟨"m1", RType.medication, [(10, 0)], none, none, ⟨0, 1⟩, none, Frequency.daily⟩

/-- A daily medication reminder at 09:00 starting 2024-01-01. -/
def sampleDaily : Reminder :=
  ⟨"d1", RType.medication, [(9, 0)], none, none, ⟨0, 1⟩, none, Frequency.daily⟩

/-- An appointment reminder: appointment on day 10 at 14:00, advance
notice 2 hours before (so due at 12:00 on day 10). -/
def sampleAppt : Reminder :=
  ⟨"a1", RType.appointment, [(14, 0)], some 10, some 2, ⟨0, 1⟩, none, Frequency.daily⟩

/-- The occurrence key of `sampleAppt`'s advance notice:
day 10 at 14:00 is `10 * 86400000 + 14 * 3600000 = 914400000` ms. -/
def sampleApptKey : OccKey := OccKey.appt "a1" 914400000

/-- A medication reminder whose single time-of-day is parametric. -/
def medOnly (id : String) (t : Nat × Nat) : Reminder :=
  ⟨id, RType.medication, [t], none, none, ⟨0, 1⟩, none, Frequency.daily⟩

/-- An appointment reminder with parametric date, time and advance. -/
def apptOnly (id : String) (aDay : Int) (t : Nat × Nat) (adv : Nat) : Reminder :=
  ⟨id, RType.appointment, [t], some aDay, some adv, ⟨0, 1⟩, none, Frequency.daily⟩

/-- An all-5xx gateway: every POST gets a 503. -/
def transientOracle : Nat → OneSignalLib.GatewayResponse :=
  fun _ => OneSignalLib.GatewayResponse.httpError 503 "Service Unavailable"

/-- A fresh notification-module state: no notification shown, no timeout
pending, next timeout id 1. -/
def sampleNotifState : NotificationsLib.NotifState := ⟨1, [], []⟩

namespace UseNotifications

theorem applyEvents_append (n : List OccKey) (a b : List Event) :
    applyEvents n (a ++ b) = applyEvents (applyEvents n a) b := by
  induction a generalizing n with
  | nil => rfl
  | cons e rest ih => cases e <;> simp [applyEvents, ih]

theorem mem_applyEvents (k : OccKey) (n : List OccKey) (evs : List Event)
    (h : k ∈ n) : k ∈ applyEvents n evs := by
  induction evs generalizing n with
  | nil => exact h
  | cons e rest ih =>
    cases e with
    | deliver _ => exact ih n h
    | record k1 => exact ih (k1 :: n) (List.mem_cons_of_mem _ h)

theorem deliverCount_append (k : OccKey) (a b : List Event) :
    deliverCount k (a ++ b) = deliverCount k a + deliverCount k b := by
  induction a with
  | nil => simp [deliverCount]
  | cons e rest ih =>
    cases e with
    | deliver k1 =>
      simp [deliverCount, ih]
      omega
    | record k1 =>
      simp [deliverCount, ih]

theorem deliverCount_pair (k key : OccKey) :
    deliverCount k [Event.deliver key, Event.record key]
      = if key = k then 1 else 0 := by
  simp [deliverCount]

theorem applyEvents_pair (n : List OccKey) (key : OccKey) :
    applyEvents n [Event.deliver key, Event.record key] = key :: n := rfl

/-- Glue for one dedup step followed by another: if each piece skips keys
already in its pre-state, delivers at most once, and leaves a delivered
key recorded, so does their concatenation. -/
theorem inv_append (k : OccKey) (n : List OccKey) (e1 e2 : List Event)
    (h1skip : k ∈ n → deliverCount k e1 = 0)
    (h1once : deliverCount k e1 ≤ 1)
    (h1sticky : 1 ≤ deliverCount k e1 → k ∈ applyEvents n e1)
    (h2skip : k ∈ applyEvents n e1 → deliverCount k e2 = 0)
    (h2once : deliverCount k e2 ≤ 1)
    (h2sticky : 1 ≤ deliverCount k e2 → k ∈ applyEvents (applyEvents n e1) e2) :
    (k ∈ n → deliverCount k (e1 ++ e2) = 0) ∧
    deliverCount k (e1 ++ e2) ≤ 1 ∧
    (1 ≤ deliverCount k (e1 ++ e2) → k ∈ applyEvents n (e1 ++ e2)) := by
  rw [deliverCount_append, applyEvents_append]
  refine ⟨?_, ?_, ?_⟩
  · intro hk
    rw [h1skip hk, h2skip (mem_applyEvents k n e1 hk)]
  · by_cases h : 1 ≤ deliverCount k e1
    · have := h2skip (h1sticky h)
      omega
    · omega
  · intro h
    by_cases hA : 1 ≤ deliverCount k e1
    · exact mem_applyEvents k _ e2 (h1sticky hA)
    · exact h2sticky (by omega)

/-- The dedup discipline inside the medication `forEach`. -/
theorem medEvents_inv (k : OccKey) (now : Instant) (id : String)
    (ts : List (Nat × Nat)) : ∀ n : List OccKey,
    (k ∈ n → deliverCount k (medEvents now n id ts) = 0) ∧
    deliverCount k (medEvents now n id ts) ≤ 1 ∧
    (1 ≤ deliverCount k (medEvents now n id ts) →
      k ∈ applyEvents n (medEvents now n id ts)) := by
  induction ts with
  | nil => intro n; simp [medEvents, deliverCount, applyEvents]
  | cons t ts ih =>
    intro n
    by_cases hg : isTimeMatch t (now.hour, now.minute)
        ∧ OccKey.med id t now.dateIdx ∉ n
    · rw [medEvents, if_pos hg]
      by_cases hk : OccKey.med id t now.dateIdx = k
      · have hrest := ih (OccKey.med id t now.dateIdx :: n)
        have hzero : deliverCount k
            (medEvents now (OccKey.med id t now.dateIdx :: n) id ts) = 0 :=
          hrest.1 (hk ▸ List.mem_cons_self _ _)
        refine ⟨fun hmem => absurd (hk ▸ hmem) hg.2, ?_, ?_⟩
        · simp [deliverCount, if_pos hk, hzero]
        · intro _
          simp only [applyEvents]
          exact mem_applyEvents k _ _ (hk ▸ List.mem_cons_self _ _)
      · have hrest := ih (OccKey.med id t now.dateIdx :: n)
        refine ⟨?_, ?_, ?_⟩
        · intro hmem
          simp [deliverCount, if_neg hk,
            hrest.1 (List.mem_cons_of_mem _ hmem)]
        · simp only [deliverCount, if_neg hk]
          omega
        · intro h
          simp only [deliverCount, if_neg hk, Nat.zero_add] at h
          simpa [applyEvents] using hrest.2.2 h
    · rw [medEvents, if_neg hg]
      exact ih n

/-- The dedup discipline of one reminder inside a tick. -/
theorem checkReminder_inv (k : OccKey) (now : Instant) (r : Reminder) :
    ∀ n : List OccKey,
    (k ∈ n → deliverCount k (checkReminder now n r) = 0) ∧
    deliverCount k (checkReminder now n r) ≤ 1 ∧
    (1 ≤ deliverCount k (checkReminder now n r) →
      k ∈ applyEvents n (checkReminder now n r)) := by
  intro n
  obtain ⟨id, rt, times, aDate, adv, sd, ed, fq⟩ := r
  cases rt with
  | medication => exact medEvents_inv k now id times n
  | appointment =>
    cases aDate with
    | none => exact medEvents_inv k now id times n
    | some aDay =>
      cases adv with
      | none => exact medEvents_inv k now id times n
      | some v =>
        by_cases hv : v = 0
        · simp only [checkReminder, if_pos hv]
          exact medEvents_inv k now id times n
        · simp only [checkReminder, if_neg hv]
          by_cases hg : (now.ms - (apptInstantMs aDay (times.headD (0, 0))
                - (v : Int) * 3600000)).natAbs ≤ 60000
              ∧ OccKey.appt id (apptInstantMs aDay (times.headD (0, 0))) ∉ n
          · rw [if_pos hg]
            refine ⟨?_, ?_, ?_⟩
            · intro hmem
              rw [deliverCount_pair]
              have hne : ¬OccKey.appt id (apptInstantMs aDay (times.headD (0, 0))) = k := by
                intro heq
                exact hg.2 (by rw [heq]; exact hmem)
              exact if_neg hne
            · rw [deliverCount_pair]
              split <;> omega
            · intro h
              rw [deliverCount_pair] at h
              rw [applyEvents_pair]
              by_cases heq : OccKey.appt id (apptInstantMs aDay (times.headD (0, 0))) = k
              · rw [← heq]
                exact List.mem_cons_self _ _
              · rw [if_neg heq] at h
                omega
          · rw [if_neg hg]
            simp [deliverCount, applyEvents]

/-- The dedup discipline of one full tick. -/
theorem checkReminders_inv (k : OccKey) (now : Instant)
    (rs : List Reminder) : ∀ n : List OccKey,
    (k ∈ n → deliverCount k (checkReminders now rs n) = 0) ∧
    deliverCount k (checkReminders now rs n) ≤ 1 ∧
    (1 ≤ deliverCount k (checkReminders now rs n) →
      k ∈ applyEvents n (checkReminders now rs n)) := by
  induction rs with
  | nil => intro n; simp [checkReminders, deliverCount, applyEvents]
  | cons r rs ih =>
    intro n
    have h1 := checkReminder_inv k now r n
    have h2 := ih (applyEvents n (checkReminder now n r))
    exact inv_append k n _ _ h1.1 h1.2.1 h1.2.2 h2.1 h2.2.1 h2.2.2

/-- Every key the medication loop delivers is immediately followed by the
recording of the same key. -/
theorem medEvents_adjacent (k : OccKey) (now : Instant) (id : String)
    (ts : List (Nat × Nat)) : ∀ n : List OccKey,
    1 ≤ deliverCount k (medEvents now n id ts) →
    ∃ pre post, medEvents now n id ts
      = pre ++ Event.deliver k :: Event.record k :: post := by
  induction ts with
  | nil => intro n h; simp [medEvents, deliverCount] at h
  | cons t ts ih =>
    intro n h
    by_cases hg : isTimeMatch t (now.hour, now.minute)
        ∧ OccKey.med id t now.dateIdx ∉ n
    · rw [medEvents, if_pos hg] at h ⊢
      by_cases hk : OccKey.med id t now.dateIdx = k
      · exact ⟨[], medEvents now (OccKey.med id t now.dateIdx :: n) id ts,
          by rw [hk]; rfl⟩
      · simp only [deliverCount, if_neg hk, Nat.zero_add] at h
        obtain ⟨pre, post, hp⟩ := ih _ h
        exact ⟨Event.deliver (OccKey.med id t now.dateIdx)
            :: Event.record (OccKey.med id t now.dateIdx) :: pre, post,
          by rw [hp]; simp⟩
    · rw [medEvents, if_neg hg] at h ⊢
      exact ih n h

/-- Every key one reminder's check delivers is immediately followed by
the recording of the same key. -/
theorem checkReminder_adjacent (k : OccKey) (now : Instant) (r : Reminder) :
    ∀ n : List OccKey,
    1 ≤ deliverCount k (checkReminder now n r) →
    ∃ pre post, checkReminder now n r
      = pre ++ Event.deliver k :: Event.record k :: post := by
  intro n h
  obtain ⟨id, rt, times, aDate, adv, sd, ed, fq⟩ := r
  cases rt with
  | medication => exact medEvents_adjacent k now id times n h
  | appointment =>
    cases aDate with
    | none => exact medEvents_adjacent k now id times n h
    | some aDay =>
      cases adv with
      | none => exact medEvents_adjacent k now id times n h
      | some v =>
        by_cases hv : v = 0
        · simp only [checkReminder, if_pos hv] at h ⊢
          exact medEvents_adjacent k now id times n h
        · simp only [checkReminder, if_neg hv] at h ⊢
          by_cases hg : (now.ms - (apptInstantMs aDay (times.headD (0, 0))
                - (v : Int) * 3600000)).natAbs ≤ 60000
              ∧ OccKey.appt id (apptInstantMs aDay (times.headD (0, 0))) ∉ n
          · rw [if_pos hg] at h ⊢
            rw [deliverCount_pair] at h
            by_cases hk : OccKey.appt id (apptInstantMs aDay (times.headD (0, 0))) = k
            · exact ⟨[], [], by rw [hk]; rfl⟩
            · rw [if_neg hk] at h
              omega
          · rw [if_neg hg] at h
            simp [deliverCount] at h

/-- Every key a tick delivers is immediately followed by the recording of
the same key, somewhere in the tick's trace. -/
theorem checkReminders_adjacent (k : OccKey) (now : Instant)
    (rs : List Reminder) : ∀ n : List OccKey,
    1 ≤ deliverCount k (checkReminders now rs n) →
    ∃ pre post, checkReminders now rs n
      = pre ++ Event.deliver k :: Event.record k :: post := by
  induction rs with
  | nil => intro n h; simp [checkReminders, deliverCount] at h
  | cons r rs ih =>
    intro n h
    rw [checkReminders] at h ⊢
    rw [deliverCount_append] at h
    by_cases h1 : 1 ≤ deliverCount k (checkReminder now n r)
    · obtain ⟨pre, post, hp⟩ := checkReminder_adjacent k now r n h1
      refine ⟨pre, post ++ checkReminders now rs
          (applyEvents n (checkReminder now n r)), ?_⟩
      rw [hp]
      simp
    · obtain ⟨pre, post, hp⟩ := ih (applyEvents n (checkReminder now n r)) (by omega)
      refine ⟨checkReminder now n r ++ pre, post, ?_⟩
      rw [hp]
      simp

/-- The dedup discipline across any run of the 30-second loop. -/
theorem runTicks_inv (k : OccKey) (rs : List Reminder)
    (ticks : List Instant) : ∀ n : List OccKey,
    (k ∈ n → deliverCount k (runTicks rs ticks n) = 0) ∧
    deliverCount k (runTicks rs ticks n) ≤ 1 ∧
    (1 ≤ deliverCount k (runTicks rs ticks n) →
      k ∈ applyEvents n (runTicks rs ticks n)) := by
  induction ticks with
  | nil => intro n; simp [runTicks, deliverCount, applyEvents]
  | cons t ts ih =>
    intro n
    have h1 := checkReminders_inv k t rs n
    have h2 := ih (applyEvents n (checkReminders t rs n))
    exact inv_append k n _ _ h1.1 h1.2.1 h1.2.2 h2.1 h2.2.1 h2.2.2

/-- Bool-to-Prop reading of `isTimeMatch`. -/
theorem isTimeMatch_iff (rt ct : Nat × Nat) :
    isTimeMatch rt ct = true
      ↔ rt.1 = ct.1 ∧ ((rt.2 : Int) - (ct.2 : Int)).natAbs ≤ 1 := by
  simp [isTimeMatch]

/-- A tick over one single-time medication reminder, reduced to its guard. -/
theorem checkReminders_medOnly (id : String) (t : Nat × Nat) (now : Instant)
    (n : List OccKey) :
    checkReminders now [medOnly id t] n
      = if isTimeMatch t (now.hour, now.minute) ∧ OccKey.med id t now.dateIdx ∉ n then
          [Event.deliver (OccKey.med id t now.dateIdx),
           Event.record (OccKey.med id t now.dateIdx)]
        else [] := by
  simp only [checkReminders, checkReminder, medOnly, medEvents]
  split <;> simp

/-- A tick over one appointment reminder with a non-zero advance, reduced
to its guard. -/
theorem checkReminders_apptOnly (id : String) (aDay : Int) (t : Nat × Nat)
    (adv : Nat) (hadv : adv ≠ 0) (now : Instant) (n : List OccKey) :
    checkReminders now [apptOnly id aDay t adv] n
      = if (now.ms - (apptInstantMs aDay t - (adv : Int) * 3600000)).natAbs ≤ 60000
            ∧ OccKey.appt id (apptInstantMs aDay t) ∉ n then
          [Event.deliver (OccKey.appt id (apptInstantMs aDay t)),
           Event.record (OccKey.appt id (apptInstantMs aDay t))]
        else [] := by
  simp only [checkReminders, checkReminder, apptOnly, if_neg hadv, List.headD]
  split <;> simp

end UseNotifications

section Claims

open UseNotifications

/-- Claim C1: at-most-once delivery — across any number of matcher ticks
within the 24-hour retention window (no eviction in between), every
occurrence key is delivered at most once; a key already in the notified
set is never delivered by any tick, and a delivered key ends up recorded
in the set, so later ticks skip it. -/
theorem C1_at_most_once_delivery (k : OccKey) (reminders : List Reminder)
    (ticks : List Instant) (notified : List OccKey) :
    deliverCount k (runTicks reminders ticks notified) ≤ 1
    ∧ (k ∈ notified → deliverCount k (runTicks reminders ticks notified) = 0)
    ∧ (1 ≤ deliverCount k (runTicks reminders ticks notified) →
        k ∈ applyEvents notified (runTicks reminders ticks notified)) := by
  have h := runTicks_inv k reminders ticks notified
  exact ⟨h.2.1, h.1, h.2.2⟩

/-- Witness for C1: with the 09:00 key already in the notified set, two
back-to-back ticks at 09:00:00 and 09:00:30 deliver nothing. -/
theorem C1_at_most_once_delivery_witness :
    deliverCount (OccKey.med "d1" (9, 0) 0)
        (runTicks [sampleDaily] [mkInstant 0 9 0 0, mkInstant 0 9 0 30]
          [OccKey.med "d1" (9, 0) 0]) ≤ 1
    ∧ deliverCount (OccKey.med "d1" (9, 0) 0)
        (runTicks [sampleDaily] [mkInstant 0 9 0 0, mkInstant 0 9 0 30]
          [OccKey.med "d1" (9, 0) 0]) = 0 :=
  ⟨(C1_at_most_once_delivery (OccKey.med "d1" (9, 0) 0) [sampleDaily]
      [mkInstant 0 9 0 0, mkInstant 0 9 0 30] [OccKey.med "d1" (9, 0) 0]).1,
   (C1_at_most_once_delivery (OccKey.med "d1" (9, 0) 0) [sampleDaily]
      [mkInstant 0 9 0 0, mkInstant 0 9 0 30] [OccKey.med "d1" (9, 0) 0]).2.1
     (by decide)⟩

/-- Claim C2, evaluated on the code: the matcher never reads `frequency`.
The weekly reminder starting 2024-01-01 (day 0) IS delivered by a tick on
2024-01-09 (day 8, `(8 - 0) mod 7 = 1 ≠ 0`) at 09:00, contradicting the
claim; the calendar page's own due-date filter answers `false` for
2024-01-09 and `true` for 2024-01-08 for the very same reminder, so the
weekly rule is implemented in the app's calendar view but not in the
delivery path. -/
theorem C2_weekly_ignored_by_matcher :
    sampleWeekly.frequency = Frequency.weekly
    ∧ sampleWeekly.startDate.idx = 0
    ∧ ((8 : Int) - 0) % 7 ≠ 0
    ∧ deliverCount (OccKey.med "w1" (9, 0) 8)
        (checkReminders (mkInstant 8 9 0 0) [sampleWeekly] []) = 1
    ∧ CalendarPage.getRemindersForDateKeep sampleWeeklyCal ⟨8, 9⟩ = false
    ∧ CalendarPage.getRemindersForDateKeep sampleWeeklyCal ⟨7, 8⟩ = true := by
  decide

/-- Claim C3, evaluated on the code: the matcher never reads `startDate`
or `endDate`.  A daily reminder whose start date is 2024-01-15 (day 14)
is delivered by a tick on 2024-01-06 (day 5), and a reminder that ended
2024-01-03 (day 2) is also delivered on day 5 — in both cases the
calendar page's own range check answers `false` for that date. -/
theorem C3_range_ignored_by_matcher :
    sampleFutureStart.startDate.idx = 14
    ∧ deliverCount (OccKey.med "f1" (9, 0) 5)
        (checkReminders (mkInstant 5 9 0 0) [sampleFutureStart] []) = 1
    ∧ CalendarPage.getRemindersForDateKeep sampleFutureStartCal ⟨5, 6⟩ = false
    ∧ sampleEnded.endDate = some ⟨2, 3⟩
    ∧ deliverCount (OccKey.med "e1" (9, 0) 5)
        (checkReminders (mkInstant 5 9 0 0) [sampleEnded] []) = 1
    ∧ CalendarPage.getRemindersForDateKeep sampleEndedCal ⟨5, 6⟩ = false := by
  decide

/-- Counterexample to claim C4 as stated: the medication path is not the
absolute window `|now - t| <= 60 s`.  At 09:59:30 a 10:00 dose is 30 s
away — inside the claimed window — yet the matcher delivers nothing
(hours differ); at 09:01:59 a 09:00 dose is 119 s away — outside the
claimed window — yet the matcher delivers. -/
theorem C4_tolerance_counterexample :
    ((mkInstant 0 9 59 30).ms - apptInstantMs 0 (10, 0)).natAbs ≤ 60000
    ∧ checkReminders (mkInstant 0 9 59 30) [sampleTen] [] = []
    ∧ 60000 < ((mkInstant 0 9 1 59).ms - apptInstantMs 0 (9, 0)).natAbs
    ∧ deliverCount (OccKey.med "d1" (9, 0) 0)
        (checkReminders (mkInstant 0 9 1 59) [sampleDaily] []) = 1 := by
  decide

/-- Claim C4 as amended: a medication time is due at a tick exactly when
the reminder hour equals the tick hour and the minutes differ by at most
one (minute-truncated comparison, not an absolute 60-second window);
only the appointment advance path uses the absolute test
`|now - t| <= 60000` ms. -/
theorem C4_tolerance_amended :
    (∀ (id : String) (t : Nat × Nat) (now : Instant) (n : List OccKey),
      1 ≤ deliverCount (OccKey.med id t now.dateIdx)
          (checkReminders now [medOnly id t] n)
        ↔ t.1 = now.hour ∧ ((t.2 : Int) - (now.minute : Int)).natAbs ≤ 1
            ∧ OccKey.med id t now.dateIdx ∉ n)
    ∧ (∀ (id : String) (aDay : Int) (t : Nat × Nat) (adv : Nat)
        (now : Instant) (n : List OccKey), adv ≠ 0 →
      (1 ≤ deliverCount (OccKey.appt id (apptInstantMs aDay t))
          (checkReminders now [apptOnly id aDay t adv] n)
        ↔ (now.ms - (apptInstantMs aDay t - (adv : Int) * 3600000)).natAbs ≤ 60000
            ∧ OccKey.appt id (apptInstantMs aDay t) ∉ n)) := by
  constructor
  · intro id t now n
    rw [checkReminders_medOnly]
    by_cases hc : isTimeMatch t (now.hour, now.minute) = true
        ∧ OccKey.med id t now.dateIdx ∉ n
    · rw [if_pos hc, deliverCount_pair, if_pos rfl]
      have hm := (isTimeMatch_iff t (now.hour, now.minute)).mp hc.1
      exact ⟨fun _ => ⟨hm.1, hm.2, hc.2⟩, fun _ => le_refl 1⟩
    · rw [if_neg hc]
      refine ⟨fun h => absurd h (by simp [deliverCount]), fun hr => absurd ?_ hc⟩
      exact ⟨(isTimeMatch_iff t (now.hour, now.minute)).mpr ⟨hr.1, hr.2.1⟩, hr.2.2⟩
  · intro id aDay t adv now n hadv
    rw [checkReminders_apptOnly id aDay t adv hadv]
    by_cases hc : (now.ms - (apptInstantMs aDay t - (adv : Int) * 3600000)).natAbs ≤ 60000
        ∧ OccKey.appt id (apptInstantMs aDay t) ∉ n
    · rw [if_pos hc, deliverCount_pair, if_pos rfl]
      exact ⟨fun _ => hc, fun _ => le_refl 1⟩
    · rw [if_neg hc]
      exact ⟨fun h => absurd h (by simp [deliverCount]), fun hr => absurd hr hc⟩

/-- Witness for C4 as amended, at concrete inputs: a 10:00 dose at a
10:01:00 tick, and the appointment advance occurrence at its exact due
moment. -/
theorem C4_tolerance_witness :
    (1 ≤ deliverCount (OccKey.med "m1" (10, 0) 0)
        (checkReminders (mkInstant 0 10 1 0) [medOnly "m1" (10, 0)] [])
      ↔ (10, 0).1 = (mkInstant 0 10 1 0).hour
          ∧ (((10, 0).2 : Int) - ((mkInstant 0 10 1 0).minute : Int)).natAbs ≤ 1
          ∧ OccKey.med "m1" (10, 0) 0 ∉ ([] : List OccKey))
    ∧ (1 ≤ deliverCount (OccKey.appt "a1" (apptInstantMs 10 (14, 0)))
        (checkReminders (mkInstant 10 12 0 0) [apptOnly "a1" 10 (14, 0) 2] [])
      ↔ ((mkInstant 10 12 0 0).ms
            - (apptInstantMs 10 (14, 0) - (2 : Int) * 3600000)).natAbs ≤ 60000
          ∧ OccKey.appt "a1" (apptInstantMs 10 (14, 0)) ∉ ([] : List OccKey)) :=
  ⟨C4_tolerance_amended.1 "m1" (10, 0) (mkInstant 0 10 1 0) [],
   C4_tolerance_amended.2 "a1" 10 (14, 0) 2 (mkInstant 10 12 0 0) [] (by decide)⟩

/-- Counterexample to claim C5 as stated: in the tick's execution order
the delivery request for a fresh key is emitted first and the key is
recorded afterwards, so the record does not precede the delivery. -/
theorem C5_order_counterexample :
    deliverCount (OccKey.med "d1" (9, 0) 0)
        (checkReminders (mkInstant 0 9 0 0) [sampleDaily] []) = 1
    ∧ recordBeforeDeliver (OccKey.med "d1" (9, 0) 0)
        (checkReminders (mkInstant 0 9 0 0) [sampleDaily] []) = false := by
  decide

/-- Claim C5 as amended: for every key a tick delivers, the delivery is
immediately followed by the recording of the same key — deliver-then-
record, adjacent in the same synchronous tick (so no other tick can run
between them). -/
theorem C5_deliver_then_record (now : Instant) (rs : List Reminder)
    (n : List OccKey) (k : OccKey)
    (h : 1 ≤ deliverCount k (checkReminders now rs n)) :
    ∃ pre post, checkReminders now rs n
      = pre ++ Event.deliver k :: Event.record k :: post :=
  checkReminders_adjacent k now rs n h

/-- Witness for C5 as amended at a concrete tick. -/
theorem C5_deliver_then_record_witness :
    1 ≤ deliverCount (OccKey.med "d1" (9, 0) 0)
        (checkReminders (mkInstant 0 9 0 0) [sampleDaily] [])
    ∧ ∃ pre post, checkReminders (mkInstant 0 9 0 0) [sampleDaily] []
        = pre ++ Event.deliver (OccKey.med "d1" (9, 0) 0)
            :: Event.record (OccKey.med "d1" (9, 0) 0) :: post :=
  ⟨by decide,
   C5_deliver_then_record (mkInstant 0 9 0 0) [sampleDaily] []
     (OccKey.med "d1" (9, 0) 0) (by decide)⟩

/-- Counterexample to claim C6 as stated: for the appointment on day 10
at 14:00 with a 2-hour advance, a tick at the appointment moment itself
(14:00) delivers nothing — there is no second "now" occurrence — while
the tick at 12:00 delivers the single advance occurrence. -/
theorem C6_two_occurrences_counterexample :
    checkReminders (mkInstant 10 14 0 0) [sampleAppt] [] = []
    ∧ checkReminders (mkInstant 10 12 0 0) [sampleAppt] []
        = [Event.deliver sampleApptKey, Event.record sampleApptKey] := by
  decide

/-- Claim C6 as amended: an appointment reminder with advance `adv >= 1`
hours yields exactly one deliverable occurrence — the advance notice,
under the single key built from the appointment datetime; every key a
tick can deliver for it is that key, and a tick at the appointment
moment itself delivers nothing. -/
theorem C6_single_occurrence (id : String) (aDay : Int) (t : Nat × Nat)
    (adv : Nat) (now : Instant) (n : List OccKey) (h : 1 ≤ adv) :
    (∀ k, 1 ≤ deliverCount k (checkReminders now [apptOnly id aDay t adv] n) →
        k = OccKey.appt id (apptInstantMs aDay t))
    ∧ (now.ms = apptInstantMs aDay t →
        checkReminders now [apptOnly id aDay t adv] n = []) := by
  have hadv : adv ≠ 0 := by omega
  rw [checkReminders_apptOnly id aDay t adv hadv]
  constructor
  · intro k hk
    by_cases hc : (now.ms - (apptInstantMs aDay t - (adv : Int) * 3600000)).natAbs ≤ 60000
        ∧ OccKey.appt id (apptInstantMs aDay t) ∉ n
    · rw [if_pos hc, deliverCount_pair] at hk
      by_cases hkk : OccKey.appt id (apptInstantMs aDay t) = k
      · exact hkk.symm
      · rw [if_neg hkk] at hk
        omega
    · rw [if_neg hc] at hk
      exact absurd hk (by simp [deliverCount])
  · intro hnow
    rw [if_neg]
    intro hc
    have h1 := hc.1
    rw [hnow] at h1
    omega

/-- Witness for C6 as amended at the concrete appointment reminder. -/
theorem C6_single_occurrence_witness :
    sampleApptKey = OccKey.appt "a1" (apptInstantMs 10 (14, 0))
    ∧ checkReminders (mkInstant 10 14 0 0) [apptOnly "a1" 10 (14, 0) 2] [] = [] :=
  ⟨(C6_single_occurrence "a1" 10 (14, 0) 2 (mkInstant 10 12 0 0) [] (by decide)).1
      sampleApptKey (by decide),
   (C6_single_occurrence "a1" 10 (14, 0) 2 (mkInstant 10 14 0 0) [] (by decide)).2
      (by decide)⟩

/-- A busy state — attempt completed (`isInitialized`) or in flight
(`initPromise` stored) — never starts a new attempt, over any number of
further calls. -/
theorem runInitCalls_busy (m : Nat) : ∀ s : OneSignalLib.InitVars,
    s.isInitialized = true ∨ s.hasPromise = true →
    (OneSignalLib.runInitCalls s m).1 = 0 := by
  induction m with
  | zero => intro s _; rfl
  | succ m ih =>
    intro s hs
    obtain ⟨i, p⟩ := s
    cases i with
    | true =>
      have h := ih ⟨true, p⟩ (Or.inl rfl)
      simpa [OneSignalLib.runInitCalls, OneSignalLib.initOneSignalCall] using h
    | false =>
      cases p with
      | true =>
        have h := ih ⟨false, true⟩ (Or.inr rfl)
        simpa [OneSignalLib.runInitCalls, OneSignalLib.initOneSignalCall] using h
      | false => simp at hs

/-- Claim C7: `initOneSignal` is idempotent and single-flight — over any
number of back-to-back calls, at most one starts an initialization
attempt; none does when initialization has already completed or is in
flight; and from the pristine module state, any positive number of calls
starts exactly one attempt. -/
theorem C7_single_flight_init (m : Nat) :
    (∀ s : OneSignalLib.InitVars,
      (OneSignalLib.runInitCalls s m).1 ≤ 1
      ∧ (s.isInitialized = true ∨ s.hasPromise = true →
          (OneSignalLib.runInitCalls s m).1 = 0))
    ∧ (1 ≤ m → (OneSignalLib.runInitCalls OneSignalLib.initVars0 m).1 = 1) := by
  constructor
  · intro s
    refine ⟨?_, runInitCalls_busy m s⟩
    obtain ⟨i, p⟩ := s
    cases i with
    | true =>
      have h := runInitCalls_busy m ⟨true, p⟩ (Or.inl rfl)
      omega
    | false =>
      cases p with
      | true =>
        have h := runInitCalls_busy m ⟨false, true⟩ (Or.inr rfl)
        omega
      | false =>
        cases m with
        | zero => simp [OneSignalLib.runInitCalls]
        | succ m =>
          have h := runInitCalls_busy m ⟨false, true⟩ (Or.inr rfl)
          simp [OneSignalLib.runInitCalls, OneSignalLib.initOneSignalCall, h]
  · intro hm
    cases m with
    | zero => omega
    | succ m =>
      have h := runInitCalls_busy m ⟨false, true⟩ (Or.inr rfl)
      simp [OneSignalLib.initVars0, OneSignalLib.runInitCalls,
        OneSignalLib.initOneSignalCall, h]

/-- Witness for C7: three overlapping calls from the pristine state start
exactly one attempt; three calls on a completed state start none. -/
theorem C7_single_flight_init_witness :
    (OneSignalLib.runInitCalls OneSignalLib.initVars0 3).1 = 1
    ∧ (OneSignalLib.runInitCalls ⟨true, true⟩ 3).1 = 0 :=
  ⟨(C7_single_flight_init 3).2 (by decide),
   ((C7_single_flight_init 3).1 ⟨true, true⟩).2 (Or.inl rfl)⟩

/-- Claim C8, evaluated on the code: facing a gateway that answers 503 on
every attempt, `scheduleNotification` performs exactly one POST — not
three — returns `{success: false}` with the gateway's error, and performs
no local delivery at all. -/
theorem C8_retry_counterexample :
    (OneSignalLib.scheduleNotification transientOracle).1
        = [OneSignalLib.DispatchEvent.gatewayPost]
    ∧ (OneSignalLib.scheduleNotification transientOracle).1.length = 1
    ∧ OneSignalLib.DispatchEvent.localDeliver
        ∉ (OneSignalLib.scheduleNotification transientOracle).1
    ∧ (OneSignalLib.scheduleNotification transientOracle).2.success = false
    ∧ (OneSignalLib.scheduleNotification transientOracle).2.error
        = some "Service Unavailable" := by
  decide

/-- Claim C8 as amended: the gateway schedule call is attempted exactly
once, whatever the gateway does; it succeeds exactly when that single
response is ok, and it never retries nor delivers locally. -/
theorem C8_single_attempt (oracle : Nat → OneSignalLib.GatewayResponse) :
    (OneSignalLib.scheduleNotification oracle).1
        = [OneSignalLib.DispatchEvent.gatewayPost]
    ∧ ((OneSignalLib.scheduleNotification oracle).2.success = true
        ↔ ∃ i, oracle 0 = OneSignalLib.GatewayResponse.ok i) := by
  cases h : oracle 0 <;> simp [OneSignalLib.scheduleNotification, h]

/-- Claim C9: `setExternalUserId` succeeds (performs the
`OneSignal.login` linking) exactly when a non-empty push-subscription
player id exists; with an absent or empty id it returns the precondition
error, which the rethrowing catch propagates to the caller. -/
theorem C9_linking_precondition (playerId : Option String) (userId : String) :
    ((∃ r, OneSignalLib.setExternalUserId playerId userId = Except.ok r)
      ↔ ∃ p, playerId = some p ∧ p ≠ "")
    ∧ (playerId = none ∨ playerId = some "" →
        OneSignalLib.setExternalUserId playerId userId
          = Except.error "User must be subscribed before linking external ID") := by
  cases playerId with
  | none => simp [OneSignalLib.setExternalUserId]
  | some p =>
    by_cases hp : p = "" <;>
      simp [OneSignalLib.setExternalUserId, hp]

/-- Witness for C9: linking succeeds with player id `"player-7"`, and
errors without any player id. -/
theorem C9_linking_precondition_witness :
    (∃ r, OneSignalLib.setExternalUserId (some "player-7") "user-1" = Except.ok r)
    ∧ OneSignalLib.setExternalUserId none "user-1"
        = Except.error "User must be subscribed before linking external ID" :=
  ⟨(C9_linking_precondition (some "player-7") "user-1").1.mpr
      ⟨"player-7", rfl, by decide⟩,
   (C9_linking_precondition none "user-1").2 (Or.inl rfl)⟩

/-- One step of the reminder-scheduling loop only ever appends a positive
timeout id to the accumulator. -/
theorem scheduleReminderStep_pos (addMonth : NotificationsLib.MonthAdvance)
    (reminderName : String) (startDayMs : Int) (frequency : Frequency)
    (rtype : RType) (nowMs : Int) (acc : List Int × NotificationsLib.NotifState)
    (t : Nat × Nat) (h : ∀ x ∈ acc.1, 0 < x) :
    ∀ x ∈ (NotificationsLib.scheduleReminderStep addMonth reminderName
        startDayMs frequency rtype nowMs acc t).1, 0 < x := by
  intro x hx
  simp only [NotificationsLib.scheduleReminderStep] at hx
  split at hx
  · split at hx
    · rename_i hpos
      rcases List.mem_append.mp hx with h1 | h1
      · exact h x h1
      · rw [List.mem_singleton] at h1
        omega
    · exact h x hx
  · split at hx
    · rename_i hpos
      rcases List.mem_append.mp hx with h1 | h1
      · exact h x h1
      · rw [List.mem_singleton] at h1
        omega
    · exact h x hx

/-- Every id in the folded accumulator is positive. -/
theorem scheduleReminder_fold_pos (addMonth : NotificationsLib.MonthAdvance)
    (reminderName : String) (startDayMs : Int) (frequency : Frequency)
    (rtype : RType) (nowMs : Int) : ∀ (times : List (Nat × Nat))
    (acc : List Int × NotificationsLib.NotifState),
    (∀ x ∈ acc.1, 0 < x) →
    ∀ x ∈ (times.foldl (NotificationsLib.scheduleReminderStep addMonth
        reminderName startDayMs frequency rtype nowMs) acc).1, 0 < x := by
  intro times
  induction times with
  | nil => intro acc h; simpa using h
  | cons t ts ih =>
    intro acc h
    rw [List.foldl_cons]
    exact ih _ (scheduleReminderStep_pos addMonth reminderName startDayMs
      frequency rtype nowMs acc t h)

/-- Claim C10: when the scheduled time is not strictly in the future the
notification is shown immediately and the sentinel `-1` is returned;
`cancelScheduledNotification` does nothing for any id `<= 0`; and the id
list `scheduleReminderNotifications` returns contains only positive ids,
never the sentinel. -/
theorem C10_past_time_contract :
    (∀ (title : String) (nowMs scheduledMs : Int)
        (st : NotificationsLib.NotifState), scheduledMs - nowMs ≤ 0 →
      (NotificationsLib.scheduleNotification title nowMs scheduledMs st).1 = -1
      ∧ (NotificationsLib.scheduleNotification title nowMs scheduledMs st).2.shownNow
          = title :: st.shownNow)
    ∧ (∀ (timeoutId : Int) (st : NotificationsLib.NotifState), timeoutId ≤ 0 →
        NotificationsLib.cancelScheduledNotification timeoutId st = st)
    ∧ (∀ (addMonth : NotificationsLib.MonthAdvance) (reminderName : String)
        (times : List (Nat × Nat)) (startDayMs : Int) (frequency : Frequency)
        (rtype : RType) (nowMs : Int) (st : NotificationsLib.NotifState),
      (∀ x ∈ (NotificationsLib.scheduleReminderNotifications addMonth
          reminderName times startDayMs frequency rtype nowMs st).1, 0 < x)
      ∧ (-1 : Int) ∉ (NotificationsLib.scheduleReminderNotifications addMonth
          reminderName times startDayMs frequency rtype nowMs st).1) := by
  refine ⟨?_, ?_, ?_⟩
  · intro title nowMs scheduledMs st h
    constructor <;> simp [NotificationsLib.scheduleNotification, h]
  · intro tid st h
    have hng : ¬tid > 0 := by omega
    simp [NotificationsLib.cancelScheduledNotification, hng]
  · intro addMonth reminderName times startDayMs frequency rtype nowMs st
    have hpos := scheduleReminder_fold_pos addMonth reminderName startDayMs
      frequency rtype nowMs times ([], st) (by simp)
    refine ⟨hpos, fun hmem => ?_⟩
    have := hpos _ hmem
    omega

/-- Witness for C10 at concrete inputs: scheduling for a past moment
returns `-1` and shows at once; cancelling `-1` is a no-op; and a
concrete schedule returns no sentinel. -/
theorem C10_past_time_contract_witness :
    (NotificationsLib.scheduleNotification "t" 100 50 sampleNotifState).1 = -1
    ∧ (NotificationsLib.scheduleNotification "t" 100 50 sampleNotifState).2.shownNow
        = ["t"]
    ∧ NotificationsLib.cancelScheduledNotification (-1) sampleNotifState
        = sampleNotifState
    ∧ (-1 : Int) ∉ (NotificationsLib.scheduleReminderNotifications
        (fun x => x + 2592000000) "aspirin" [(9, 0)] 0 Frequency.daily
        RType.medication 0 sampleNotifState).1 :=
  ⟨(C10_past_time_contract.1 "t" 100 50 sampleNotifState (by decide)).1,
   (C10_past_time_contract.1 "t" 100 50 sampleNotifState (by decide)).2,
   C10_past_time_contract.2.1 (-1) sampleNotifState (by decide),
   (C10_past_time_contract.2.2 (fun x => x + 2592000000) "aspirin" [(9, 0)] 0
      Frequency.daily RType.medication 0 sampleNotifState).2⟩

end Claims

end MedBud
